import Mathlib

/-!
Verification development for the Matcher repository (Lips7/Matcher, Python
binding sources).  The files under the repository's source tree publish the
configuration and result types of three bindings (`matcher_c`,
`matcher_py/matcher_py`, `matcher_py/python/matcher_py`) together with the
binding test suites.  The matching engine itself lives outside those files;
its behaviour is modelled here from the repository specification, with every
such definition marked `Modelled from the spec:` in its doc comment.
-/

set_option maxRecDepth 100000

/- Section 1: enumeration values and type shapes embedded from the source. -/

namespace Mc

/-- Values of `ProcessType` (IntFlag) in src/matcher_c/extension_types.py,
lines 21-28. -/
def ProcessType.MatchNone : Nat := 0b00000001

/-- Fanjian flag of `ProcessType` in src/matcher_c/extension_types.py. -/
def ProcessType.MatchFanjian : Nat := 0b00000010

/-- Delete flag of `ProcessType` in src/matcher_c/extension_types.py. -/
def ProcessType.MatchDelete : Nat := 0b00000100

/-- Normalize flag of `ProcessType` in src/matcher_c/extension_types.py. -/
def ProcessType.MatchNormalize : Nat := 0b00001000

/-- Combined Delete|Normalize flag of `ProcessType` in
src/matcher_c/extension_types.py. -/
def ProcessType.MatchDeleteNormalize : Nat := 0b00001100

/-- Combined Fanjian|Delete|Normalize flag of `ProcessType` in
src/matcher_c/extension_types.py. -/
def ProcessType.MatchFanjianDeleteNormalize : Nat := 0b00001110

/-- PinYin flag of `ProcessType` in src/matcher_c/extension_types.py. -/
def ProcessType.MatchPinYin : Nat := 0b00010000

/-- PinYinChar flag of `ProcessType` in src/matcher_c/extension_types.py. -/
def ProcessType.MatchPinYinChar : Nat := 0b00100000

/-- Field names, in declaration order, of the `MatchResult` TypedDict in
src/matcher_c/extension_types.py, lines 185-201. -/
def MatchResultFields : List String :=
  ["match_id", "table_id", "word_id", "word", "similarity"]

/-- Field names of the `Simple` TypedDict produced by
`MatchTableType.Simple` in src/matcher_c/extension_types.py. -/
def SimpleVariantFields : List String := ["process_type"]

/-- Field names of the `Regex` TypedDict produced by
`MatchTableType.Regex` in src/matcher_c/extension_types.py. -/
def RegexVariantFields : List String := ["process_type", "regex_match_type"]

/-- Field names of the `Similar` TypedDict produced by
`MatchTableType.Similar` in src/matcher_c/extension_types.py. -/
def SimilarVariantFields : List String :=
  ["process_type", "sim_match_type", "threshold"]

/-- Tags of the three-way `MatchTableType` union in
src/matcher_c/extension_types.py (the single dictionary key each
constructor emits). -/
def MatchTableTypeTags : List String := ["simple", "regex", "similar"]

end Mc

namespace PyPkg

/-- Values of `SimpleMatchType` (IntFlag) in
src/matcher_py/python/matcher_py/extension_types.py, lines 24-33. -/
def SimpleMatchType.MatchNone : Nat := 0b00000001

/-- Fanjian flag of `SimpleMatchType` in
src/matcher_py/python/matcher_py/extension_types.py. -/
def SimpleMatchType.MatchFanjian : Nat := 0b00000010

/-- WordDelete flag of `SimpleMatchType` in
src/matcher_py/python/matcher_py/extension_types.py. -/
def SimpleMatchType.MatchWordDelete : Nat := 0b00000100

/-- TextDelete flag of `SimpleMatchType` in
src/matcher_py/python/matcher_py/extension_types.py. -/
def SimpleMatchType.MatchTextDelete : Nat := 0b00001000

/-- Delete flag of `SimpleMatchType` in
src/matcher_py/python/matcher_py/extension_types.py. -/
def SimpleMatchType.MatchDelete : Nat := 0b00001100

/-- Normalize flag of `SimpleMatchType` in
src/matcher_py/python/matcher_py/extension_types.py. -/
def SimpleMatchType.MatchNormalize : Nat := 0b00010000

/-- Combined Delete|Normalize flag of `SimpleMatchType` in
src/matcher_py/python/matcher_py/extension_types.py. -/
def SimpleMatchType.MatchDeleteNormalize : Nat := 0b00011100

/-- Combined Fanjian|Delete|Normalize flag of `SimpleMatchType` in
src/matcher_py/python/matcher_py/extension_types.py. -/
def SimpleMatchType.MatchFanjianDeleteNormalize : Nat := 0b00011110

/-- PinYin flag of `SimpleMatchType` in
src/matcher_py/python/matcher_py/extension_types.py. -/
def SimpleMatchType.MatchPinYin : Nat := 0b00100000

/-- PinYinChar flag of `SimpleMatchType` in
src/matcher_py/python/matcher_py/extension_types.py. -/
def SimpleMatchType.MatchPinYinChar : Nat := 0b01000000

/-- Field names of the `MatchResult` msgspec struct in
src/matcher_py/python/matcher_py/extension_types.py, lines 142-144. -/
def MatchResultFields : List String := ["table_id", "word"]

/-- Field names of the `Simple` msgspec struct (the Simple variant of
`MatchTableType`) in src/matcher_py/python/matcher_py/extension_types.py. -/
def SimpleVariantFields : List String := ["simple_match_type"]

/-- Field names of the `Regex` msgspec struct (the Regex variant of
`MatchTableType`) in src/matcher_py/python/matcher_py/extension_types.py. -/
def RegexVariantFields : List String := ["regex_match_type"]

/-- Field names of the `Similar` msgspec struct (the Similar variant of
`MatchTableType`) in src/matcher_py/python/matcher_py/extension_types.py. -/
def SimilarVariantFields : List String := ["sim_match_type", "threshold"]

end PyPkg

namespace PyInner

/-- Values of `SimpleMatchType` (IntFlag) in
src/matcher_py/matcher_py/extension_types.py, lines 41-48. -/
def SimpleMatchType.MatchNone : Nat := 0b00000001

/-- Fanjian flag of `SimpleMatchType` in
src/matcher_py/matcher_py/extension_types.py. -/
def SimpleMatchType.MatchFanjian : Nat := 0b00000010

/-- Delete flag of `SimpleMatchType` in
src/matcher_py/matcher_py/extension_types.py. -/
def SimpleMatchType.MatchDelete : Nat := 0b00001100

/-- Normalize flag of `SimpleMatchType` in
src/matcher_py/matcher_py/extension_types.py. -/
def SimpleMatchType.MatchNormalize : Nat := 0b00010000

/-- Combined Delete|Normalize flag of `SimpleMatchType` in
src/matcher_py/matcher_py/extension_types.py. -/
def SimpleMatchType.MatchDeleteNormalize : Nat := 0b00011100

/-- Combined Fanjian|Delete|Normalize flag of `SimpleMatchType` in
src/matcher_py/matcher_py/extension_types.py. -/
def SimpleMatchType.MatchFanjianDeleteNormalize : Nat := 0b00011110

/-- PinYin flag of `SimpleMatchType` in
src/matcher_py/matcher_py/extension_types.py. -/
def SimpleMatchType.MatchPinYin : Nat := 0b00100000

/-- PinYinChar flag of `SimpleMatchType` in
src/matcher_py/matcher_py/extension_types.py. -/
def SimpleMatchType.MatchPinYinChar : Nat := 0b01000000

/-- Values of the flat `MatchTableType` string enum in
src/matcher_py/matcher_py/extension_types.py, lines 7-23.  This published
configuration type is a plain five-value enumeration carrying no
per-variant fields; the `MatchTable` struct there carries
`simple_match_type` as a separate sibling field. -/
def MatchTableTypeValues : List String :=
  ["simple", "similar_char", "acrostic", "similar_text_levenshtein", "regex"]

/-- Field names of the `MatchResult` msgspec struct in
src/matcher_py/matcher_py/extension_types.py, lines 75-77. -/
def MatchResultFields : List String := ["table_id", "word"]

end PyInner

/- Section 2: the behavioural model of the engine.  The engine itself is not
among the repository's source files (only its published types, bindings and
tests are), so the definitions below are modelled from the specification. -/

/-- Modelled from the spec: process-type bit test.  A transform is active
when its bit is set in the mask (spec section 3).  Bit values follow the
`SimpleMatchType` encoding published by the matcher_py sources. -/
def has_bit (pt bit : Nat) : Bool := pt &&& bit != 0

/-- Modelled from the spec: fragment of the embedded traditional-to-
simplified Fanjian conversion table (spec sections 4.1 and 6); the full
line-oriented resource file is not among the source files.  Characters off
the fragment map to themselves. -/
def fanjian_table : List (Char × Char) := [('妳', '你'), ('繁', '繁')]

/-- Modelled from the spec: Fanjian transform, mapping each codepoint
through the conversion table, identity elsewhere (spec section 4.1 step 1). -/
def apply_fanjian (s : List Char) : List Char :=
  s.map fun c => ((fanjian_table.lookup c).getD c)

/-- Modelled from the spec: the fixed "noise" character set removed by the
Delete transform (ASCII punctuation, whitespace, CJK punctuation; spec
section 4.1 step 2). -/
def delete_set : List Char :=
  [' ', '\t', '\n', '\r', '!', ',', '.', '?', ';', ':', '-', '_', '*',
   '！', '，', '。', '？', '；', '：', '、']

/-- Modelled from the spec: Delete transform, dropping every noise
character (spec section 4.1 step 2). -/
def apply_delete (s : List Char) : List Char :=
  s.filter fun c => !(delete_set.contains c)

/-- Modelled from the spec: fragment of the embedded normalization table
(full-width ASCII, stylistic letters, circled digits; spec section 4.1
step 3); the full resource file is not among the source files. -/
def normalize_table : List (Char × Char) := [('Ａ', 'a'), ('１', '1')]

/-- Modelled from the spec: Normalize transform, case-folding to lower and
mapping characters through the normalization table (spec section 4.1
step 3). -/
def apply_normalize (s : List Char) : List Char :=
  s.map fun c => ((normalize_table.lookup c).getD c.toLower)

/-- Modelled from the spec: fragment of the embedded Han-to-Pinyin table
(spec sections 4.1 and 6); the full resource file is not among the source
files.  Only the characters exercised by the repository's tests are
listed; characters off the fragment (in particular non-CJK text) pass
through unchanged. -/
def pinyin_table : List (Char × String) :=
  [('西', "xi"), ('安', "an"), ('洗', "xi"), ('按', "an"), ('现', "xian"),
   ('你', "ni"), ('好', "hao")]

/-- Modelled from the spec: PinYin transform — each Han character expands
to its Pinyin syllable followed by a reserved separator so the automaton
matches whole-syllable boundaries; non-CJK passes through (spec section
4.1 step 4). -/
def apply_pinyin (s : List Char) : List Char :=
  (s.map fun c =>
    match pinyin_table.lookup c with
    | some py => py.data ++ [' ']
    | none => [c]).flatten

/-- Modelled from the spec: PinYinChar transform — like PinYin but without
syllable separators (spec section 4.1 step 5). -/
def apply_pinyin_char (s : List Char) : List Char :=
  (s.map fun c =>
    match pinyin_table.lookup c with
    | some py => py.data
    | none => [c]).flatten

/-- Modelled from the spec: the transform pipeline, applied strictly in the
order Fanjian, Delete, Normalize, PinYin/PinYinChar regardless of bit
order; PinYinChar dominates when both Pinyin bits are set (spec sections 3
and 4.1).  A mask with only the `MatchNone` bit leaves the text unchanged. -/
def text_process (pt : Nat) (s : List Char) : List Char :=
  let s1 := if has_bit pt 0b10 then apply_fanjian s else s
  let s2 := if has_bit pt 0b1100 then apply_delete s1 else s1
  let s3 := if has_bit pt 0b10000 then apply_normalize s2 else s2
  if has_bit pt 0b1000000 then apply_pinyin_char s3
  else if has_bit pt 0b100000 then apply_pinyin s3
  else s3

/-- Substring test on character lists: true when `p` occurs contiguously in
the second argument.  This is the matching semantics of the Aho-Corasick
automaton for a single pattern (spec glossary). -/
def contains_sub (p : List Char) : List Char → Bool
  | [] => p.isEmpty
  | c :: rest => p.isPrefixOf (c :: rest) || contains_sub p rest

/-- Modelled from the spec: a SimpleMatcher word-map configuration,
`process_type → (word_id → word)` (spec sections 4.2 and 6). -/
def SimpleTable : Type := List (Nat × List (Nat × String))

/-- Modelled from the spec: a single word of a SimpleMatcher table hits a
text when the transformed word occurs in the transformed text; empty
patterns are ignored silently (spec section 4.2). -/
def simple_hit (pt : Nat) (word : String) (text : List Char) : Bool :=
  let w := text_process pt word.data
  !w.isEmpty && contains_sub w (text_process pt text)

/-- Modelled from the spec: `SimpleMatcher.process`, returning the
`(word_id, word)` entries whose word hits the text under the entry's
process type, de-duplicated by word id (spec section 4.2). -/
def simple_process (cfg : SimpleTable) (text : String) : List (Nat × String) :=
  ((cfg.flatMap fun g => g.2.filter fun e => simple_hit g.1 e.2 text.data).dedup)

/-- Modelled from the spec: `SimpleMatcher.is_match` — true when some word
of the configuration hits the text (spec section 4.2). -/
def simple_is_match (cfg : SimpleTable) (text : String) : Bool :=
  cfg.any fun g => g.2.any fun e => simple_hit g.1 e.2 text.data

/- Section 3: strategy matchers and the orchestrator, modelled from spec
sections 4.3 and 4.4. -/

/-- Modelled from the spec: token of the regex dialect the repository's
patterns use — a literal character or a character class in brackets
(spec section 4.3.1). -/
inductive RToken where
  | lit (c : Char)
  | cls (cs : List Char)
deriving DecidableEq

/-- Modelled from the spec: regex pattern compilation, fuel-indexed over
the remaining input length.  A bracket opens a character class running to
the closing bracket; every other character is a literal. -/
def parse_regex_aux : Nat → List Char → List RToken
  | 0, _ => []
  | _, [] => []
  | fuel + 1, c :: rest =>
    if c = '[' then
      let body := rest.takeWhile fun x => x ≠ ']'
      let rest2 := (rest.dropWhile fun x => x ≠ ']').drop 1
      RToken.cls body :: parse_regex_aux fuel rest2
    else
      RToken.lit c :: parse_regex_aux fuel rest

/-- Modelled from the spec: compile a regex pattern string (spec section
4.3.1). -/
def parse_regex (pat : String) : List RToken :=
  parse_regex_aux pat.data.length pat.data

/-- Modelled from the spec: one regex token against one character. -/
def rtoken_hit : RToken → Char → Bool
  | RToken.lit c, x => c = x
  | RToken.cls cs, x => cs.contains x

/-- Modelled from the spec: anchored match of a token sequence at the head
of a text. -/
def regex_at : List RToken → List Char → Bool
  | [], _ => true
  | _ :: _, [] => false
  | t :: ts, c :: rest => rtoken_hit t c && regex_at ts rest

/-- Modelled from the spec: unanchored search of a token sequence anywhere
in a text (spec section 4.3.1: a non-empty match anywhere reports a hit). -/
def regex_search (ts : List RToken) : List Char → Bool
  | [] => ts.isEmpty
  | c :: rest => regex_at ts (c :: rest) || regex_search ts rest

/-- Modelled from the spec: full regex strategy test for one pattern
(spec section 4.3.1). -/
def regex_hit (pat : String) (text : List Char) : Bool :=
  regex_search (parse_regex pat) text

/-- Split a character list into groups at every character satisfying the
predicate; delimiters are dropped and may produce empty groups. -/
def split_by (p : Char → Bool) (s : List Char) : List (List Char) :=
  s.foldr
    (fun c acc =>
      if p c then [] :: acc
      else
        match acc with
        | g :: gs => (c :: g) :: gs
        | [] => [[c]])
    [[]]

/-- Modelled from the spec: per-slot alternatives of a SimilarChar row,
split at commas (spec sections 3 and 4.3.2). -/
def slot_alternatives (row : String) : List (List Char) :=
  split_by (fun c => c = ',') row.data

/-- Modelled from the spec: all concatenations picking one alternative per
row, in row order — the language of the composite regex
of grouped alternations (spec section 4.3.2). -/
def alternation_combos : List (List (List Char)) → List (List Char)
  | [] => [[]]
  | alts :: rest =>
    alts.flatMap fun a => (alternation_combos rest).map fun r => a ++ r

/-- Modelled from the spec: SimilarChar strategy — the whole word list
forms one composite pattern; the hit reports the matched combination, at
most one hit for the composite (spec section 4.3.2 and the repository's
similar-char test, which reports the matched text as the word). -/
def similar_char_hits (wl : List String) (text : List Char) : List String :=
  (((alternation_combos (wl.map slot_alternatives)).filter
      fun combo => contains_sub combo text).map
    fun combo => String.mk combo).take 1

/-- Modelled from the spec: the sentence delimiter set of the Acrostic
strategy (spec section 3 invariants). -/
def sentence_delims : List Char :=
  [',', '.', '!', '?', ';', '。', '，', '！', '？', '；', '\n', '\r']

/-- Modelled from the spec: the comma-separated elements of an acrostic
pattern (spec section 4.3.3). -/
def acro_parts (pat : String) : List (List Char) :=
  split_by (fun c => c = ',') pat.data

/-- Modelled from the spec: first non-whitespace character of every
sentence of the input, in order (spec section 4.3.3). -/
def sentence_firsts (text : List Char) : List Char :=
  (split_by (fun c => sentence_delims.contains c) text).filterMap
    fun s => (s.dropWhile Char.isWhitespace).head?

/-- Modelled from the spec: Acrostic strategy test — the i-th pattern
element must be the first non-whitespace character of the i-th sentence,
for every element of the pattern (spec section 4.3.3). -/
def acrostic_hit (pat : String) (text : List Char) : Bool :=
  ((sentence_firsts text).take (acro_parts pat).length).map
      (fun c => [c]) == acro_parts pat

/-- One row of the Levenshtein dynamic program: `diag` and `row` hold the
previous row, `left` the cell just computed. -/
def lev_row_aux (c : Char) : List Char → Nat → List Nat → Nat → List Nat
  | [], _, _, _ => []
  | _ :: _, _, [], _ => []
  | x :: xs, diag, up :: rest, left =>
    let v := min (left + 1) (min (up + 1) (diag + if x = c then 0 else 1))
    v :: lev_row_aux c xs up rest v

/-- Levenshtein edit distance between two character lists, computed row by
row (spec section 4.3.4). -/
def lev_dist (a b : List Char) : Nat :=
  let init := List.range (a.length + 1)
  let final := b.foldl
    (fun row c =>
      match row with
      | [] => []
      | d0 :: drest => (d0 + 1) :: lev_row_aux c a d0 drest (d0 + 1))
    init
  final.getLastD 0

/-- Modelled from the spec: normalized Levenshtein ratio
`1 - dist / max(len_a, len_b)` (spec section 4.3.4).  The ratio of two
empty strings is 1. -/
def lev_ratio (a b : List Char) : ℚ :=
  let m := max a.length b.length
  if m = 0 then 1 else mkRat ((m : Int) - (lev_dist a b : Int)) m

/-- Modelled from the spec: Levenshtein similarity test for one pattern
against a candidate — a hit exactly when the ratio reaches the threshold
(spec section 4.3.4).  The candidate compared is the processed input text,
which is the candidate span the repository's tests exercise. -/
def sim_hit (threshold : ℚ) (word : String) (text : List Char) : Bool :=
  decide (threshold ≤ lev_ratio word.data text)

/-- Regex strategy selector of a match table (spec sections 3 and 6). -/
inductive RegexMatchType where
  | similar_char
  | acrostic
  | regex
deriving DecidableEq

/-- Similarity metric selector of a match table (spec sections 3 and 6);
only Levenshtein is wired, the others are reserved. -/
inductive SimMatchType where
  | levenshtein
  | damerau_levenshtein
  | indel
  | jaro
  | jaro_winkler
deriving DecidableEq

/-- Three-way tagged union of table kinds with per-variant fields (spec
sections 3 and 6). -/
inductive MatchTableType where
  | simple (process_type : Nat)
  | regexKind (process_type : Nat) (regex_match_type : RegexMatchType)
  | similar (process_type : Nat) (sim_match_type : SimMatchType)
      (threshold : ℚ)
deriving DecidableEq

/-- One match table: grouping id, table kind, patterns, and exemption
patterns with their process type (spec section 3). -/
structure MatchTable where
  table_id : Nat
  match_table_type : MatchTableType
  word_list : List String
  exemption_process_type : Nat
  exemption_word_list : List String
deriving DecidableEq

/-- The full configuration: table ids mapped to their table lists (spec
section 3). -/
def MatchTableMap : Type := List (Nat × List MatchTable)

/-- Modelled from the spec: the raw hits of one table on a text, before
exemption — each hit the original configured word (or the matched
composite for SimilarChar), at most one hit per distinct word-list entry
(spec sections 3 and 4.3).  Tables configured with a reserved similarity
metric produce no hits (construction rejects them, spec section 7). -/
def table_hits (t : MatchTable) (text : String) : List String :=
  match t.match_table_type with
  | MatchTableType.simple pt =>
    t.word_list.dedup.filter fun w => simple_hit pt w text.data
  | MatchTableType.regexKind pt RegexMatchType.regex =>
    t.word_list.dedup.filter fun w => regex_hit w (text_process pt text.data)
  | MatchTableType.regexKind pt RegexMatchType.similar_char =>
    similar_char_hits t.word_list (text_process pt text.data)
  | MatchTableType.regexKind pt RegexMatchType.acrostic =>
    t.word_list.dedup.filter fun w => acrostic_hit w (text_process pt text.data)
  | MatchTableType.similar pt SimMatchType.levenshtein threshold =>
    t.word_list.dedup.filter fun w =>
      sim_hit threshold w (text_process pt text.data)
  | MatchTableType.similar _ _ _ => []

/-- Modelled from the spec: exemption test — some exemption word matches
the text under the table's exemption process type (spec sections 3 and
4.4). -/
def is_exempted (t : MatchTable) (text : String) : Bool :=
  t.exemption_word_list.any fun w =>
    simple_hit t.exemption_process_type w text.data

/-- Modelled from the spec: the contribution of one table to `word_match`:
its hits tagged with its table id, or nothing at all when an exemption
word matches (spec section 4.4). -/
def table_results (t : MatchTable) (text : String) : List (Nat × String) :=
  if is_exempted t text then []
  else (table_hits t text).map fun w => (t.table_id, w)

/-- All tables of a configuration, in configuration order. -/
def all_tables (m : MatchTableMap) : List MatchTable :=
  m.flatMap fun g => g.2

/-- Modelled from the spec: `Matcher.word_match` — every non-exempted hit
of every table, de-duplicated by the `(table_id, word)` pair (spec section
4.4). -/
def word_match (m : MatchTableMap) (text : String) : List (Nat × String) :=
  ((all_tables m).flatMap fun t => table_results t text).dedup

/-- Modelled from the spec: `Matcher.is_match` — true as soon as one table
produces a non-exempted hit (spec section 4.4). -/
def is_match (m : MatchTableMap) (text : String) : Bool :=
  (all_tables m).any fun t => !(table_results t text).isEmpty

/- Section 4: construction and configuration decoding, modelled from spec
sections 6 and 7 and the binding test suites. -/

/-- Modelled from the spec: a decoded self-describing serialized value
(the logical content of the MessagePack / JSON configuration bytes, spec
section 6). -/
inductive MPValue where
  | int (n : Int)
  | str (s : String)
  | boolean (b : Bool)
  | decimal (q : ℚ)
  | list (xs : List MPValue)
  | dict (kvs : List (MPValue × MPValue))

/-- Modelled from the spec: the argument a binding constructor receives —
either a byte buffer, which decodes to a structured value or fails to
decode, or a value of some other Python type (spec sections 6 and 7). -/
inductive PyArg where
  | bytes (decoded : Option MPValue)
  | nonBytes

/-- Modelled from the spec: the error classes the boundary reports (spec
section 7): a type error for a non-bytes argument, a value error for
undecodable bytes or a structurally invalid configuration. -/
inductive PyErr where
  | typeError
  | valueError
deriving DecidableEq

/-- Lookup of a string key in a decoded dictionary. -/
def mp_get (kvs : List (MPValue × MPValue)) (key : String) : Option MPValue :=
  (kvs.find? fun kv =>
    match kv.1 with
    | MPValue.str s => s == key
    | _ => false).map fun kv => kv.2

/-- Modelled from the spec: a `u32` configuration field — an integer in
the unsigned 32-bit range (spec section 6). -/
def as_u32 : MPValue → Except PyErr Nat
  | MPValue.int n =>
    if 0 ≤ n ∧ n < 4294967296 then Except.ok n.toNat
    else Except.error PyErr.valueError
  | _ => Except.error PyErr.valueError

/-- A string configuration field. -/
def as_str : MPValue → Except PyErr String
  | MPValue.str s => Except.ok s
  | _ => Except.error PyErr.valueError

/-- A list-of-strings configuration field. -/
def as_str_list : MPValue → Except PyErr (List String)
  | MPValue.list xs => xs.mapM as_str
  | _ => Except.error PyErr.valueError

/-- Modelled from the spec: decode a `regex_match_type` string (spec
section 6); any unknown value is a structural error. -/
def parse_regex_match_type (v : MPValue) : Except PyErr RegexMatchType := do
  match ← as_str v with
  | "similar_char" => Except.ok RegexMatchType.similar_char
  | "acrostic" => Except.ok RegexMatchType.acrostic
  | "regex" => Except.ok RegexMatchType.regex
  | _ => Except.error PyErr.valueError

/-- Modelled from the spec: decode a `sim_match_type` string; the reserved
metrics are recognised but rejected at construction (spec sections 3
and 7). -/
def parse_sim_match_type (v : MPValue) : Except PyErr SimMatchType := do
  match ← as_str v with
  | "levenshtein" => Except.ok SimMatchType.levenshtein
  | "damrau_levenshtein" => Except.error PyErr.valueError
  | "indel" => Except.error PyErr.valueError
  | "jaro" => Except.error PyErr.valueError
  | "jaro_winkler" => Except.error PyErr.valueError
  | _ => Except.error PyErr.valueError

/-- A threshold field: a decimal (or integral) number. -/
def as_threshold : MPValue → Except PyErr ℚ
  | MPValue.decimal q => Except.ok q
  | MPValue.int n => Except.ok (n : ℚ)
  | _ => Except.error PyErr.valueError

/-- Modelled from the spec: decode the tagged `match_table_type` union — a
dictionary with exactly one of the tags `simple`, `regex`, `similar`
and the per-variant fields of that tag (spec section 6). -/
def parse_match_table_type (v : MPValue) : Except PyErr MatchTableType :=
  match v with
  | MPValue.dict [(MPValue.str "simple", MPValue.dict fields)] => do
    let pt ← as_u32 (← expect (mp_get fields "process_type"))
    Except.ok (MatchTableType.simple pt)
  | MPValue.dict [(MPValue.str "regex", MPValue.dict fields)] => do
    let pt ← as_u32 (← expect (mp_get fields "process_type"))
    let rmt ← parse_regex_match_type (← expect (mp_get fields "regex_match_type"))
    Except.ok (MatchTableType.regexKind pt rmt)
  | MPValue.dict [(MPValue.str "similar", MPValue.dict fields)] => do
    let pt ← as_u32 (← expect (mp_get fields "process_type"))
    let smt ← parse_sim_match_type (← expect (mp_get fields "sim_match_type"))
    let th ← as_threshold (← expect (mp_get fields "threshold"))
    Except.ok (MatchTableType.similar pt smt th)
  | _ => Except.error PyErr.valueError
where
  /-- A required field that is absent is a structural error. -/
  expect : Option MPValue → Except PyErr MPValue
    | some x => Except.ok x
    | none => Except.error PyErr.valueError

/-- Modelled from the spec: decode one `MatchTable` dictionary (spec
section 6). -/
def parse_match_table (v : MPValue) : Except PyErr MatchTable :=
  match v with
  | MPValue.dict kvs => do
    let tid ← as_u32 (← parse_match_table_type.expect (mp_get kvs "table_id"))
    let mtt ← parse_match_table_type
      (← parse_match_table_type.expect (mp_get kvs "match_table_type"))
    let wl ← as_str_list (← parse_match_table_type.expect (mp_get kvs "word_list"))
    let ept ← as_u32
      (← parse_match_table_type.expect (mp_get kvs "exemption_process_type"))
    let ewl ← as_str_list
      (← parse_match_table_type.expect (mp_get kvs "exemption_word_list"))
    Except.ok
      { table_id := tid, match_table_type := mtt, word_list := wl,
        exemption_process_type := ept, exemption_word_list := ewl }
  | _ => Except.error PyErr.valueError

/-- Modelled from the spec: decode a full `MatchTableMap` — a dictionary
from u32 table ids to lists of tables (spec section 6). -/
def parse_match_table_map (v : MPValue) : Except PyErr MatchTableMap :=
  match v with
  | MPValue.dict kvs =>
    kvs.mapM fun kv => do
      let tid ← as_u32 kv.1
      match kv.2 with
      | MPValue.list ts => Except.ok ((tid, ← ts.mapM parse_match_table) : Nat × List MatchTable)
      | _ => Except.error PyErr.valueError
  | _ => Except.error PyErr.valueError

/-- Modelled from the spec: the `Matcher` constructor at the binding
boundary — a non-bytes argument is a type error; bytes that do not decode,
or decode to a structurally invalid configuration, are a value error; on
failure no matcher is produced (spec sections 6 and 7). -/
def matcher_new : PyArg → Except PyErr MatchTableMap
  | PyArg.nonBytes => Except.error PyErr.typeError
  | PyArg.bytes none => Except.error PyErr.valueError
  | PyArg.bytes (some v) => parse_match_table_map v

/-- Modelled from the spec: decode a standalone SimpleMatcher word map —
a dictionary from u32 process types to dictionaries from u32 word ids to
word strings (spec section 6). -/
def parse_simple_table (v : MPValue) : Except PyErr SimpleTable :=
  match v with
  | MPValue.dict kvs =>
    kvs.mapM fun kv => do
      let pt ← as_u32 kv.1
      match kv.2 with
      | MPValue.dict entries =>
        Except.ok ((pt, ← entries.mapM fun e => do
          Except.ok ((← as_u32 e.1, ← as_str e.2) : Nat × String)) : Nat × List (Nat × String))
      | _ => Except.error PyErr.valueError
  | _ => Except.error PyErr.valueError

/-- Modelled from the spec: the `SimpleMatcher` constructor at the binding
boundary (spec sections 6 and 7). -/
def simple_matcher_new : PyArg → Except PyErr SimpleTable
  | PyArg.nonBytes => Except.error PyErr.typeError
  | PyArg.bytes none => Except.error PyErr.valueError
  | PyArg.bytes (some v) => parse_simple_table v

/- Section 5: concrete configurations from the claims and the repository's
test suites. -/

/-- Simple table on the raw text with an exemption word, from the
exemption test of the repository (word `helloworld`, exemption
`worldwide`). -/
def exemption_simple_table : MatchTable :=
  { table_id := 1, match_table_type := MatchTableType.simple 1,
    word_list := ["helloworld"], exemption_process_type := 1,
    exemption_word_list := ["worldwide"] }

/-- Regex table with the same exemption word, from the exemption test of
the repository (pattern `hello`, exemption `worldwide`). -/
def exemption_regex_table : MatchTable :=
  { table_id := 1,
    match_table_type := MatchTableType.regexKind 1 RegexMatchType.regex,
    word_list := ["hello"], exemption_process_type := 1,
    exemption_word_list := ["worldwide"] }

/-- The regex table of the exemption test with its exemption list emptied,
to exhibit table-locality of exemption. -/
def plain_regex_table : MatchTable :=
  { table_id := 1,
    match_table_type := MatchTableType.regexKind 1 RegexMatchType.regex,
    word_list := ["hello"], exemption_process_type := 1,
    exemption_word_list := [] }

/-- The two-table configuration of the exemption test: both tables under
table id 1, both exempted by `worldwide`. -/
def exemption_both_config : MatchTableMap :=
  [(1, [exemption_simple_table, exemption_regex_table])]

/-- A configuration in which only the simple table carries the exemption
word, so its suppression must not silence the regex table. -/
def exemption_one_config : MatchTableMap :=
  [(1, [exemption_simple_table, plain_regex_table])]

/-- The Levenshtein similarity configuration of the repository's test:
one Similar table, threshold 0.8, word `helloworld`. -/
def levenshtein_config : MatchTableMap :=
  [(1, [{ table_id := 1,
          match_table_type :=
            MatchTableType.similar 1 SimMatchType.levenshtein (mkRat 8 10),
          word_list := ["helloworld"], exemption_process_type := 1,
          exemption_word_list := [] }])]

/-- The acrostic configuration of the repository's test: patterns
`h,e,l,l,o` and `你,好`. -/
def acrostic_config : MatchTableMap :=
  [(1, [{ table_id := 1,
          match_table_type :=
            MatchTableType.regexKind 1 RegexMatchType.acrostic,
          word_list := ["h,e,l,l,o", "你,好"], exemption_process_type := 1,
          exemption_word_list := [] }])]

/-- The regex configuration of the repository's test: patterns
`h[aeiou]llo` and `w[aeiou]rd`. -/
def regex_config : MatchTableMap :=
  [(1, [{ table_id := 1,
          match_table_type := MatchTableType.regexKind 1 RegexMatchType.regex,
          word_list := ["h[aeiou]llo", "w[aeiou]rd"],
          exemption_process_type := 1, exemption_word_list := [] }])]

/-- The SimpleMatcher word map of the PinYin test: word `西安` under the
PinYin process type (bit value 32 in the matcher_py encoding). -/
def pinyin_word_map : SimpleTable := [(32, [(1, "西安")])]

/-- The SimpleMatcher word map of the PinYinChar test: word `西安` under
the PinYinChar process type (bit value 64 in the matcher_py encoding). -/
def pinyin_char_word_map : SimpleTable := [(64, [(1, "西安")])]

/- Section 6: theorems settling the claims. -/

/-- Unfolding of the Levenshtein ratio to the specification's formula
`1 - dist / max(len_a, len_b)` on non-empty inputs. -/
theorem lev_ratio_eq_one_sub_div (a b : List Char)
    (h : max a.length b.length ≠ 0) :
    lev_ratio a b =
      1 - (lev_dist a b : ℚ) / (max a.length b.length : ℚ) := by
  unfold lev_ratio
  simp only [if_neg h]
  rw [Rat.mkRat_eq_div]
  have hm : ((max a.length b.length : ℚ)) ≠ 0 := by exact_mod_cast h
  push_cast
  field_simp

/-- C1: if any entry of a table's exemption word list matches the text
under the exemption process type, all of that table's hits are discarded,
and the suppression is local to that table.  Concretely, for the two-table
configuration of the exemption test (a Simple table `helloworld` and a
Regex table `hello`, both exempted by `worldwide`), `helloworld` matches
while `helloworldwide` does not; and when only the Simple table carries
the exemption, the Regex table's hit on `helloworldwide` survives. -/
theorem exemption_discards_and_is_table_local :
    (∀ (m : MatchTableMap) (text : String) (t : MatchTable),
        t ∈ all_tables m → is_exempted t text = true →
          table_results t text = []) ∧
    is_match exemption_both_config "helloworld" = true ∧
    is_match exemption_both_config "helloworldwide" = false ∧
    word_match exemption_one_config "helloworldwide" = [(1, "hello")] := by
  refine ⟨?_, by decide, by decide, by decide⟩
  intro m text t _ hex
  simp [table_results, hex]

/-- C2: `is_match` answers true exactly when `word_match` returns at
least one result. -/
theorem is_match_iff_word_match_nonempty (m : MatchTableMap) (text : String) :
    is_match m text = true ↔ word_match m text ≠ [] := by
  unfold is_match word_match
  rw [List.any_eq_true]
  rw [Ne, List.dedup_eq_nil]
  constructor
  · rintro ⟨t, ht, hne⟩ hnil
    rw [List.flatMap_eq_nil_iff] at hnil
    have h2 := hnil _ ht
    rw [h2] at hne
    simp at hne
  · intro h
    by_contra hall
    push_neg at hall
    apply h
    rw [List.flatMap_eq_nil_iff]
    intro t ht
    have h3 := hall t ht
    simpa using h3

/-- Witness for C2: the equivalence instantiated at the exemption-test
configuration and the text `helloworld`. -/
theorem is_match_iff_word_match_nonempty_witness :
    is_match exemption_both_config "helloworld" = true ↔
      word_match exemption_both_config "helloworld" ≠ [] :=
  is_match_iff_word_match_nonempty exemption_both_config "helloworld"

/-- C3 counterexample: the claimed encoding (Delete=4, Normalize=8,
PinYin=16, PinYinChar=32) is not the one used by every published
process-type enum — both `SimpleMatchType` enums of the matcher_py sources
use different values. -/
theorem process_type_encoding_not_uniform :
    PyPkg.SimpleMatchType.MatchDelete ≠ 4 ∧
    PyPkg.SimpleMatchType.MatchNormalize ≠ 8 ∧
    PyPkg.SimpleMatchType.MatchPinYin ≠ 16 ∧
    PyPkg.SimpleMatchType.MatchPinYinChar ≠ 32 ∧
    PyInner.SimpleMatchType.MatchDelete ≠ 4 ∧
    PyInner.SimpleMatchType.MatchFanjianDeleteNormalize ≠ 14 := by
  decide

/-- C3 amended: the encoding None=1, Fanjian=2, Delete=4, Normalize=8,
PinYin=16, PinYinChar=32 with Fanjian|Delete|Normalize = 14 is the one of
matcher_c's `ProcessType`; the two `SimpleMatchType` enums of the
matcher_py sources instead use Delete=12 (WordDelete 4 | TextDelete 8),
Normalize=16, PinYin=32, PinYinChar=64, with Fanjian|Delete|Normalize
= 30. -/
theorem process_type_encoding_per_binding :
    (Mc.ProcessType.MatchNone = 1 ∧
     Mc.ProcessType.MatchFanjian = 2 ∧
     Mc.ProcessType.MatchDelete = 4 ∧
     Mc.ProcessType.MatchNormalize = 8 ∧
     Mc.ProcessType.MatchPinYin = 16 ∧
     Mc.ProcessType.MatchPinYinChar = 32 ∧
     Mc.ProcessType.MatchFanjianDeleteNormalize =
       (Mc.ProcessType.MatchFanjian |||
         Mc.ProcessType.MatchDelete ||| Mc.ProcessType.MatchNormalize) ∧
     Mc.ProcessType.MatchFanjianDeleteNormalize = 14) ∧
    (PyPkg.SimpleMatchType.MatchNone = 1 ∧
     PyPkg.SimpleMatchType.MatchFanjian = 2 ∧
     PyPkg.SimpleMatchType.MatchDelete =
       (PyPkg.SimpleMatchType.MatchWordDelete |||
         PyPkg.SimpleMatchType.MatchTextDelete) ∧
     PyPkg.SimpleMatchType.MatchDelete = 12 ∧
     PyPkg.SimpleMatchType.MatchNormalize = 16 ∧
     PyPkg.SimpleMatchType.MatchPinYin = 32 ∧
     PyPkg.SimpleMatchType.MatchPinYinChar = 64 ∧
     PyPkg.SimpleMatchType.MatchFanjianDeleteNormalize = 30) ∧
    (PyInner.SimpleMatchType.MatchNone = 1 ∧
     PyInner.SimpleMatchType.MatchFanjian = 2 ∧
     PyInner.SimpleMatchType.MatchDelete = 12 ∧
     PyInner.SimpleMatchType.MatchNormalize = 16 ∧
     PyInner.SimpleMatchType.MatchPinYin = 32 ∧
     PyInner.SimpleMatchType.MatchPinYinChar = 64 ∧
     PyInner.SimpleMatchType.MatchFanjianDeleteNormalize = 30) := by
  decide

/-- C4: a candidate hits a Similar(Levenshtein) table exactly when
`1 - dist / max(len_a, len_b)` reaches the threshold; for threshold 0.8
on pattern `helloworld`, `helloworl` (ratio 9/10) and `ha1loworld`
(ratio 8/10) match, `ha1loworld1` (ratio 8/11) does not, and the reported
word is the original pattern. -/
theorem levenshtein_threshold_rule :
    (∀ (th : ℚ) (pat : String) (cand : List Char),
        max pat.data.length cand.length ≠ 0 →
          (sim_hit th pat cand = true ↔
            th ≤ 1 - (lev_dist pat.data cand : ℚ) /
              (max pat.data.length cand.length : ℚ))) ∧
    (0.8 : ℚ) = mkRat 8 10 ∧
    lev_ratio "helloworld".data "helloworl".data = 9 / 10 ∧
    lev_ratio "helloworld".data "ha1loworld".data = 8 / 10 ∧
    lev_ratio "helloworld".data "ha1loworld1".data = 8 / 11 ∧
    lev_ratio "helloworld".data "ha1loworld1".data < mkRat 8 10 ∧
    is_match levenshtein_config "helloworl" = true ∧
    is_match levenshtein_config "ha1loworld" = true ∧
    is_match levenshtein_config "ha1loworld1" = false ∧
    word_match levenshtein_config "helloworl" = [(1, "helloworld")] := by
  refine ⟨?_, ?_, ?_, ?_, ?_, ?_, by decide, by decide, by decide, by decide⟩
  · intro th pat cand h
    unfold sim_hit
    rw [decide_eq_true_iff, lev_ratio_eq_one_sub_div pat.data cand h]
  · norm_num [Rat.mkRat_eq_div]
  · rw [show lev_ratio "helloworld".data "helloworl".data = mkRat 9 10 from
      by decide]
    norm_num [Rat.mkRat_eq_div]
  · rw [show lev_ratio "helloworld".data "ha1loworld".data = mkRat 8 10 from
      by decide]
    norm_num [Rat.mkRat_eq_div]
  · rw [show lev_ratio "helloworld".data "ha1loworld1".data = mkRat 8 11 from
      by decide]
    norm_num [Rat.mkRat_eq_div]
  · decide

/-- Witness for C4: the threshold equivalence instantiated at threshold
8/10, pattern `helloworld` and candidate `helloworl`, together with the
concrete facts of the claim. -/
theorem levenshtein_threshold_rule_witness :
    sim_hit (mkRat 8 10) "helloworld" "helloworl".data = true ↔
      mkRat 8 10 ≤ 1 - (lev_dist "helloworld".data "helloworl".data : ℚ) /
        (max "helloworld".data.length "helloworl".data.length : ℚ) :=
  levenshtein_threshold_rule.1 (mkRat 8 10) "helloworld" "helloworl".data
    (by decide)

/-- C5: an acrostic pattern `c1,...,ck` matches exactly when the input,
split at the sentence delimiters, yields at least k sentences whose first
non-whitespace characters are c1...ck in order; concretely `h,e,l,l,o`
matches `hope, endures, love, lasts, onward.`, and `你,好` fails on the
single-sentence `你好` but matches `你的笑容温暖, 好心情常伴。`. -/
theorem acrostic_rule :
    (∀ (pat : String) (text : List Char),
        acrostic_hit pat text = true ↔
          ((sentence_firsts text).take (acro_parts pat).length).map
              (fun c => [c]) = acro_parts pat) ∧
    (∀ (pat : String) (text : List Char),
        acrostic_hit pat text = true →
          (acro_parts pat).length ≤ (sentence_firsts text).length) ∧
    is_match acrostic_config "hope, endures, love, lasts, onward." = true ∧
    is_match acrostic_config "你好" = false ∧
    is_match acrostic_config "你的笑容温暖, 好心情常伴。" = true ∧
    word_match acrostic_config "hope, endures, love, lasts, onward." =
      [(1, "h,e,l,l,o")] ∧
    word_match acrostic_config "你的笑容温暖, 好心情常伴。" =
      [(1, "你,好")] := by
  have key : ∀ (pat : String) (text : List Char),
      acrostic_hit pat text = true ↔
        ((sentence_firsts text).take (acro_parts pat).length).map
            (fun c => [c]) = acro_parts pat := by
    intro pat text
    unfold acrostic_hit
    exact beq_iff_eq
  refine ⟨key, ?_, by decide, by decide, by decide, by decide, by decide⟩
  intro pat text h
  have h1 := (key pat text).mp h
  have h2 := congrArg List.length h1
  simp only [List.length_map, List.length_take] at h2
  exact min_eq_right_iff.mp (by rw [min_comm] at h2; exact h2)

/-- Witness for C5: the characterization and the length bound instantiated
at pattern `h,e,l,l,o` and the acrostic test text. -/
theorem acrostic_rule_witness :
    (acro_parts "h,e,l,l,o").length ≤
      (sentence_firsts "hope, endures, love, lasts, onward.".data).length :=
  acrostic_rule.2.1 "h,e,l,l,o" "hope, endures, love, lasts, onward.".data
    (by decide)

/-- C6: under PinYin the word `西安` matches the homophone text `洗按` but
not the single contraction `现`; under PinYinChar both `现` and the plain
letters `xian` match. -/
theorem pinyin_vs_pinyin_char :
    simple_is_match pinyin_word_map "洗按" = true ∧
    simple_is_match pinyin_word_map "现" = false ∧
    simple_is_match pinyin_char_word_map "现" = true ∧
    simple_is_match pinyin_char_word_map "xian" = true := by
  decide

/-- C7 counterexample: the `MatchResult` type published by matcher_c does
not consist of exactly the two fields `table_id` and `word`. -/
theorem matcher_c_match_result_not_two_fields :
    Mc.MatchResultFields ≠ ["table_id", "word"] := by
  decide

/-- C7 amended: the `MatchResult` emitted by the matcher_py bindings
consists of exactly `table_id` and `word`, and the word field holds the
original configured pattern (`h[aeiou]llo` for the regex hit on `hallo`),
not the matched substring; matcher_c however publishes a five-field
`MatchResult` (match_id, table_id, word_id, word, similarity). -/
theorem match_result_shape_and_original_word :
    PyPkg.MatchResultFields = ["table_id", "word"] ∧
    PyInner.MatchResultFields = ["table_id", "word"] ∧
    Mc.MatchResultFields =
      ["match_id", "table_id", "word_id", "word", "similarity"] ∧
    word_match regex_config "hallo" = [(1, "h[aeiou]llo")] ∧
    is_match regex_config "ward" = true := by
  decide

/-- C8 counterexample: the per-variant fields of the claimed shape are not
the ones every published configuration type exposes — the matcher_py
package publishes a Regex variant without `process_type` and the inner
matcher_py module publishes a flat five-value enum instead of the
three-tag union. -/
theorem match_table_type_shape_not_uniform :
    PyPkg.RegexVariantFields ≠ ["process_type", "regex_match_type"] ∧
    PyPkg.SimilarVariantFields ≠
      ["process_type", "sim_match_type", "threshold"] ∧
    PyInner.MatchTableTypeValues ≠ Mc.MatchTableTypeTags := by
  decide

/-- C8 amended: matcher_c exposes the three-way tagged union
simple{process_type} | regex{process_type, regex_match_type} |
similar{process_type, sim_match_type, threshold}; the matcher_py package
exposes a three-way union whose variants carry simple_match_type,
regex_match_type, and sim_match_type+threshold respectively (process
types live on the enclosing MatchTable); the inner matcher_py module
exposes a flat five-value string enum. -/
theorem match_table_type_shapes_per_binding :
    Mc.MatchTableTypeTags = ["simple", "regex", "similar"] ∧
    Mc.SimpleVariantFields = ["process_type"] ∧
    Mc.RegexVariantFields = ["process_type", "regex_match_type"] ∧
    Mc.SimilarVariantFields = ["process_type", "sim_match_type", "threshold"] ∧
    PyPkg.SimpleVariantFields = ["simple_match_type"] ∧
    PyPkg.RegexVariantFields = ["regex_match_type"] ∧
    PyPkg.SimilarVariantFields = ["sim_match_type", "threshold"] ∧
    PyInner.MatchTableTypeValues =
      ["simple", "similar_char", "acrostic", "similar_text_levenshtein",
        "regex"] := by
  decide

/-- C9: a non-bytes constructor argument is a type error; bytes that do
not decode, or that decode to a structurally invalid configuration, are a
value error; a failed construction yields no matcher at all; the empty
map constructs successfully for both constructors. -/
theorem construction_error_classes :
    matcher_new PyArg.nonBytes = Except.error PyErr.typeError ∧
    simple_matcher_new PyArg.nonBytes = Except.error PyErr.typeError ∧
    matcher_new (PyArg.bytes none) = Except.error PyErr.valueError ∧
    simple_matcher_new (PyArg.bytes none) = Except.error PyErr.valueError ∧
    matcher_new (PyArg.bytes (some (MPValue.str "invalid"))) =
      Except.error PyErr.valueError ∧
    matcher_new (PyArg.bytes (some (MPValue.list []))) =
      Except.error PyErr.valueError ∧
    matcher_new
        (PyArg.bytes (some (MPValue.dict [(MPValue.str "a", MPValue.int 1)])))
      = Except.error PyErr.valueError ∧
    simple_matcher_new
        (PyArg.bytes (some (MPValue.dict [(MPValue.str "a", MPValue.int 1)])))
      = Except.error PyErr.valueError ∧
    matcher_new (PyArg.bytes (some (MPValue.dict []))) = Except.ok [] ∧
    simple_matcher_new (PyArg.bytes (some (MPValue.dict []))) =
      Except.ok [] ∧
    (∀ (arg : PyArg) (e : PyErr), matcher_new arg = Except.error e →
        ∀ (mm : MatchTableMap), matcher_new arg ≠ Except.ok mm) := by
  refine ⟨rfl, rfl, rfl, rfl, rfl, rfl, rfl, rfl, rfl, rfl, ?_⟩
  intro arg e he mm hok
  rw [he] at hok
  exact Except.noConfusion hok

/-- C10: the two constructors treat a key mapped to an empty list
asymmetrically — the Matcher accepts the configuration mapping table id 1
to an empty table list, the SimpleMatcher rejects the same shape (its
values must be word maps, not lists) with a value error, and both accept
the fully empty map. -/
theorem empty_table_list_asymmetry :
    matcher_new
        (PyArg.bytes (some (MPValue.dict [(MPValue.int 1, MPValue.list [])])))
      = Except.ok [(1, [])] ∧
    simple_matcher_new
        (PyArg.bytes (some (MPValue.dict [(MPValue.int 1, MPValue.list [])])))
      = Except.error PyErr.valueError ∧
    matcher_new (PyArg.bytes (some (MPValue.dict []))) = Except.ok [] ∧
    simple_matcher_new (PyArg.bytes (some (MPValue.dict []))) =
      Except.ok [] := by
  exact ⟨rfl, rfl, rfl, rfl⟩

/-- Witness for C1: the discard rule instantiated at the exemption-test
configuration, the simple table and the text `helloworldwide`, on which
the exemption word matches. -/
theorem exemption_discards_witness :
    table_results exemption_simple_table "helloworldwide" = [] :=
  exemption_discards_and_is_table_local.1 exemption_both_config
    "helloworldwide" exemption_simple_table (by decide) (by decide)

/-- Witness for C9: the no-partial-matcher rule instantiated at the
non-bytes argument. -/
theorem construction_error_classes_witness :
    matcher_new PyArg.nonBytes ≠ Except.ok [] :=
  construction_error_classes.2.2.2.2.2.2.2.2.2.2 PyArg.nonBytes
    PyErr.typeError rfl []
